import Mathlib

/-
  Verification of the CA-Suite ingestion-summarization gateway.

  Shallow embedding of the frontend pages and the API bridge:
    * src/gst.js                          (GST notice upload page)
    * src/unnamed/part_001                (Tally import page)
    * src/frontend/pages/api/generate.js  (text-completion bridge)
    * base-URL resolution lines of the other pages
      (src/unnamed/part_000 tasks, part_002 appointments, part_003 clients).

  JavaScript values that may be `undefined` are modelled as `Option`;
  JSON bodies are a small inductive `JsonVal`; the `||` operator is
  modelled with JavaScript truthiness (`jsOr`, `jsOrString`); a thrown
  exception inside the `try` block is an `Except.error`, and the
  `catch`/`finally` clauses are applied explicitly.
-/

namespace CASuite

/-- A JSON value as delivered by `res.json()` / `response.data`. -/
inductive JsonVal where
  | null
  | bool (b : Bool)
  | num (q : ℚ)
  | str (s : String)
  | arr (elems : List JsonVal)
  | obj (fields : List (String × JsonVal))

/-- JavaScript property access `data.key` on a parsed JSON value:
`some` the stored value when `data` is an object with that key,
`none` (JavaScript `undefined`) otherwise. -/
def getField : JsonVal → String → Option JsonVal
  | .obj fields, key => fields.lookup key
  | _, _ => none

/-- JavaScript truthiness of a JSON value (note: an empty array and an
empty object are truthy in JavaScript). -/
def truthy : JsonVal → Bool
  | .null => false
  | .bool b => b
  | .num q => decide (q ≠ 0)
  | .str s => decide (s ≠ "")
  | .arr _ => true
  | .obj _ => true

/-- JavaScript `x || d` where `x` may be `undefined`. -/
def jsOr (x : Option JsonVal) (d : JsonVal) : JsonVal :=
  match x with
  | some v => if truthy v then v else d
  | none => d

/-- JavaScript `x || d` on an environment string that may be unset;
an empty string is falsy. -/
def jsOrString (x : Option String) (d : String) : String :=
  match x with
  | some s => if s = "" then d else s
  | none => d

/-- JavaScript coercion of a possibly-`undefined` string used in string
concatenation: `undefined + "/x"` yields `"undefined/x"`. -/
def jsStringCoe (x : Option String) : String :=
  match x with
  | some s => s
  | none => "undefined"

/-- An uploaded file handle (identified by its name; contents are opaque
to the gateway, which is a dumb pipe). -/
abbrev UploadFile := String

/-- A multipart form body: ordered `append`ed (fieldName, file) entries. -/
abbrev FormBody := List (String × UploadFile)

/-- Outcome of `fetch` followed by `res.json()`: the promise either
resolves with a status and a body-parse result (`none` when `res.json()`
rejects), or rejects with a network error. -/
inductive FetchResult where
  | response (status : Nat) (body : Option JsonVal)
  | networkError

/-- The failing fetch outcomes: promise rejection (network failure) or a
body that is not valid JSON (parse failure).  A non-2xx status alone is
not one of them: `fetch` resolves on any HTTP status. -/
def FetchResult.isFailure : FetchResult → Bool
  | .networkError => true
  | .response _ none => true
  | .response _ (some _) => false

/-! ## GST notice page (src/gst.js) -/

/-- React state of the `GSTNotice` page: `useState` hooks
`noticeFile` (initially `null`), `supportFiles` (initially `[]`),
`reply` (initially `''`, may become `undefined`), `missing`
(initially `[]`), `loading` (initially `false`). -/
structure GstState where
  noticeFile : Option UploadFile
  supportFiles : List UploadFile
  reply : Option JsonVal
  missing : JsonVal
  loading : Bool

/-- The initial state of the `GSTNotice` page as set up by its
`useState` initializers. -/
def gstInitialState : GstState :=
  { noticeFile := none, supportFiles := [], reply := some (.str ""),
    missing := .arr [], loading := false }

/-- The multipart body built in `handleSubmit` (src/gst.js lines 19-23):
`formData.append('notice', noticeFile)` then one
`formData.append('additional_documents', file)` per support file, in order. -/
def gstFormData (noticeFile : UploadFile) (supportFiles : List UploadFile) : FormBody :=
  [("notice", noticeFile)] ++ supportFiles.map (fun f => ("additional_documents", f))

/-- The response mapping applied on the success path (src/gst.js lines
30-32): `setReply(data.reply)` and
`setMissing(data.missing_documents || [])`. -/
def mapNotice (data : JsonVal) : Option JsonVal × JsonVal :=
  (getField data "reply", jsOr (getField data "missing_documents") (.arr []))

/-- Base URL of the GST page (src/gst.js line 25):
`process.env.NEXT_PUBLIC_BACKEND_URL || 'http://localhost:8000'`. -/
def gstBackendURL (env : Option String) : String :=
  jsOrString env "http://localhost:8000"

/-- The body of the `try` block of `handleSubmit` in src/gst.js after the
fetch: a network error or a `res.json()` rejection throws; a parsed body
runs the two state setters.  The response status is never inspected. -/
def gstTryBody (s : GstState) (outcome : FetchResult) : Except Unit GstState :=
  match outcome with
  | .networkError => .error ()
  | .response _ none => .error ()
  | .response _ (some data) =>
      .ok { s with reply := (mapNotice data).1, missing := (mapNotice data).2 }

/-- Result of one run of a submit handler: the final component state, the
multipart bodies actually handed to `fetch`, and the number of
`console.error` calls. -/
structure GstRun where
  state : GstState
  requests : List FormBody
  consoleErrors : Nat

/-- `handleSubmit` of src/gst.js, given the outcome of the single network
exchange: return immediately when no notice file is selected; otherwise
set `loading`, build the form body, perform one fetch, apply the success
mapping or the `catch` branch (`console.error` only), and in `finally`
clear `loading`. -/
def gstHandleSubmit (s : GstState) (outcome : FetchResult) : GstRun :=
  match s.noticeFile with
  | none => { state := s, requests := [], consoleErrors := 0 }
  | some f =>
      let s1 := { s with loading := true }
      let body := gstFormData f s.supportFiles
      match gstTryBody s1 outcome with
      | .ok s2 => { state := { s2 with loading := false }, requests := [body], consoleErrors := 0 }
      | .error _ => { state := { s1 with loading := false }, requests := [body], consoleErrors := 1 }

/-! ## Tally import page (src/unnamed/part_001) -/

/-- React state of the `TallyImport` page: `file` (initially `null`),
`result` (initially `null`), `loading` (initially `false`). -/
structure TallyState where
  file : Option UploadFile
  result : Option JsonVal
  loading : Bool

/-- Result of one run of the Tally `handleSubmit`. -/
structure TallyRun where
  state : TallyState
  requests : List FormBody
  consoleErrors : Nat

/-- Base URL of the Tally page (src/unnamed/part_001 line 22). -/
def tallyBackendURL (env : Option String) : String :=
  jsOrString env "http://localhost:8000"

/-- The error result stored by the Tally `catch` branch:
`setResult({ error: 'Failed to import file' })`. -/
def tallyErrorResult : JsonVal :=
  .obj [("error", .str "Failed to import file")]

/-- `handleSubmit` of src/unnamed/part_001: return when no file is
selected; otherwise append the single `file` field, set `loading`,
fetch, store the parsed body wholesale (`setResult(data)`), or on a
thrown error log it and store the error result; `finally` clears
`loading`. -/
def tallyHandleSubmit (s : TallyState) (outcome : FetchResult) : TallyRun :=
  match s.file with
  | none => { state := s, requests := [], consoleErrors := 0 }
  | some f =>
      let body : FormBody := [("file", f)]
      let s1 := { s with loading := true }
      match outcome with
      | .response _ (some data) =>
          { state := { s1 with result := some data, loading := false },
            requests := [body], consoleErrors := 0 }
      | _ =>
          { state := { s1 with result := some tallyErrorResult, loading := false },
            requests := [body], consoleErrors := 1 }

/-- The row count the Tally page renders: `result.rows`
(src/unnamed/part_001, `{result.rows !== undefined && ...}`). -/
def tallyRowCount (data : JsonVal) : Option JsonVal :=
  getField data "rows"

/-- The totals object the Tally page renders: `result.totals`. -/
def tallyTotals (data : JsonVal) : Option JsonVal :=
  getField data "totals"

/-- `Object.entries` of a parsed JSON value: the key/value pairs of an
object, in insertion order. -/
def objEntries : JsonVal → List (String × JsonVal)
  | .obj fields => fields
  | _ => []

/-! ## Base-URL resolution at the other page call sites -/

/-- Base URL of the tasks page (src/unnamed/part_000 line 13). -/
def tasksBackendURL (env : Option String) : String :=
  jsOrString env "http://localhost:8000"

/-- Base URL of the appointments page (src/unnamed/part_002 line 10). -/
def appointmentsBackendURL (env : Option String) : String :=
  jsOrString env "http://localhost:8000"

/-- Base URL of the clients page (src/unnamed/part_003):
`process.env.NEXT_PUBLIC_BACKEND_URL || process.env.BACKEND_URL ||
'http://localhost:8000'`. -/
def clientsBaseURL (env benv : Option String) : String :=
  jsOrString env (jsOrString benv "http://localhost:8000")

/-! ## Text-completion bridge (src/frontend/pages/api/generate.js) -/

/-- The downstream URL built on line 11 of generate.js:
`process.env.NEXT_PUBLIC_BACKEND_URL + '/generate_reply'` — plain string
concatenation with NO default, so an unset variable is coerced to the
string "undefined". -/
def generateReplyURL (env : Option String) : String :=
  jsStringCoe env ++ "/generate_reply"

/-- Outcome of the `axios.post` in the bridge: axios resolves only on a
2xx status (with the parsed body) and rejects otherwise. -/
inductive AxiosOutcome where
  | success (data : JsonVal)
  | failure

/-- The HTTP response the bridge sends back. -/
structure ApiResponse where
  status : Nat
  body : JsonVal

/-- Result of one run of the bridge handler: its HTTP response and the
(url, JSON body) pairs of the downstream calls it performed. -/
structure HandlerRun where
  response : ApiResponse
  downstreamCalls : List (String × JsonVal)

/-- The JSON body forwarded downstream: `{ message: prompt }`.  When
`prompt` is `undefined`, JSON serialization drops the key. -/
def messageBody (prompt : Option JsonVal) : JsonVal :=
  match prompt with
  | some p => .obj [("message", p)]
  | none => .obj []

/-- `handler` of src/frontend/pages/api/generate.js: reject non-POST with
405 and no downstream call; otherwise forward `{ message: prompt }` to
the downstream completion endpoint; on success answer 200 with
`{ reply: response.data.reply || '' }`; on a thrown error answer 500. -/
def generateHandler (method : String) (reqBody : JsonVal) (env : Option String)
    (outcome : AxiosOutcome) : HandlerRun :=
  if method ≠ "POST" then
    { response := { status := 405, body := .obj [("message", .str "Method not allowed")] },
      downstreamCalls := [] }
  else
    let prompt := getField reqBody "prompt"
    let call := (generateReplyURL env, messageBody prompt)
    match outcome with
    | .success data =>
        { response := { status := 200,
                        body := .obj [("reply", jsOr (getField data "reply") (.str ""))] },
          downstreamCalls := [call] }
    | .failure =>
        { response := { status := 500, body := .obj [("message", .str "Error generating reply")] },
          downstreamCalls := [call] }

end CASuite

namespace CASuite

/-! ## Helper lemmas -/

theorem filter_additional_ne_notice (aux : List UploadFile) :
    (aux.map (fun f => ("additional_documents", f))).filter
      (fun e => e.1 == "notice") = [] := by
  induction aux with
  | nil => rfl
  | cons a t ih => simp [ih]

theorem filter_additional_self (aux : List UploadFile) :
    ((aux.map (fun f => ("additional_documents", f))).filter
      (fun e => e.1 == "additional_documents")).map Prod.snd = aux := by
  induction aux with
  | nil => rfl
  | cons a t ih => simpa using ih

/-! ## Claims -/

/-- Claim C2: for every non-null primary file and every sequence of
auxiliary files, the encoded multipart body has exactly one entry under
the field name `notice`, carrying the primary file, and exactly the
auxiliary files, in input order, under the repeated field name
`additional_documents`. -/
theorem claim_C2_upload_encoder (p : UploadFile) (aux : List UploadFile) :
    ((gstFormData p aux).filter (fun e => e.1 == "notice")).map Prod.snd = [p] ∧
    ((gstFormData p aux).filter (fun e => e.1 == "additional_documents")).map Prod.snd = aux := by
  constructor
  · simp [gstFormData, List.filter_append, filter_additional_ne_notice]
  · simp [gstFormData, List.filter_append, filter_additional_self]

/-- Claim C3: when no primary file is selected, `handleSubmit` returns
before any network activity: the transport client is never invoked (no
request is issued) and the component state is left exactly as it was, so
the request state never leaves Idle. -/
theorem claim_C3_no_file_short_circuit (s : GstState) (o : FetchResult)
    (h : s.noticeFile = none) :
    gstHandleSubmit s o = { state := s, requests := [], consoleErrors := 0 } := by
  simp [gstHandleSubmit, h]

/-- Witness for C3: submitting from the pristine initial state (no file
selected) issues no request and changes nothing. -/
theorem claim_C3_witness :
    gstHandleSubmit gstInitialState .networkError =
      { state := gstInitialState, requests := [], consoleErrors := 0 } :=
  claim_C3_no_file_short_circuit gstInitialState .networkError rfl

/-- Counterexample for C1: on the response `{}` (reply absent) the mapper
stores `data.reply`, i.e. JavaScript `undefined` (`none`), not the empty
string, so the claimed "narrative equal to the empty string when the
field is absent" fails. -/
theorem claim_C1_counterexample :
    (mapNotice (.obj [])).1 = none ∧
    (mapNotice (.obj [])).1 ≠ some (.str "") := by
  refine ⟨rfl, ?_⟩
  intro h
  exact Option.noConfusion h

/-- Claim C1 (amended): the mapped narrative equals the `reply` field
when present and is `undefined` (absent, not the empty string) when the
field is absent; the mapped missing-items value equals the
`missing_documents` array when present and the empty array when absent;
in neither absent case does mapping fail (the mapper is total). -/
theorem claim_C1_notice_mapper (data : JsonVal) :
    (∀ v, getField data "reply" = some v → (mapNotice data).1 = some v) ∧
    (getField data "reply" = none → (mapNotice data).1 = none) ∧
    (getField data "missing_documents" = none → (mapNotice data).2 = .arr []) ∧
    (∀ xs, getField data "missing_documents" = some (.arr xs) →
      (mapNotice data).2 = .arr xs) := by
  refine ⟨fun v hv => ?_, fun h => ?_, fun h => ?_, fun xs hxs => ?_⟩
  · simp [mapNotice, hv]
  · simp [mapNotice, h]
  · simp [mapNotice, jsOr, h]
  · simp [mapNotice, jsOr, hxs, truthy]

/-- Witness for C1: on `{ reply: "Dear Sir", missing_documents: ["PAN card"] }`
the mapper yields that narrative and that missing list; on `{ reply: "" }`
(missing_documents absent) the missing list is empty, without failure. -/
theorem claim_C1_witness :
    (mapNotice (.obj [("reply", .str "Dear Sir"),
        ("missing_documents", .arr [.str "PAN card"])])).1 = some (.str "Dear Sir") ∧
    (mapNotice (.obj [("reply", .str "Dear Sir"),
        ("missing_documents", .arr [.str "PAN card"])])).2 = .arr [.str "PAN card"] ∧
    (mapNotice (.obj [("reply", .str "")])).2 = .arr [] :=
  ⟨(claim_C1_notice_mapper _).1 _ rfl,
   (claim_C1_notice_mapper _).2.2.2 _ rfl,
   (claim_C1_notice_mapper _).2.2.1 rfl⟩

/-- Claim C4: a well-formed tabular response is stored wholesale
(`setResult(data)`), so the rendered row count equals the response's
`rows` value and the rendered totals entries are exactly the response's
key/value pairs with the numeric values unchanged — re-serializing those
entries reproduces the original pairs (round-trip). -/
theorem claim_C4_tabular_roundtrip (s : TallyState) (f : UploadFile) (st : Nat)
    (data : JsonVal) (n : ℚ) (ts : List (String × JsonVal))
    (hf : s.file = some f)
    (hrows : getField data "rows" = some (.num n))
    (htot : getField data "totals" = some (.obj ts)) :
    (tallyHandleSubmit s (.response st (some data))).state.result = some data ∧
    tallyRowCount data = some (.num n) ∧
    (tallyTotals data).map objEntries = some ts := by
  refine ⟨?_, ?_, ?_⟩
  · simp [tallyHandleSubmit, hf]
  · simp [tallyRowCount, hrows]
  · simp [tallyTotals, htot, objEntries]

/-- Witness for C4: the spec's example
`{ rows: 42, totals: { Debit: 1000.5, Credit: 1000.5 } }`. -/
theorem claim_C4_witness :
    (tallyHandleSubmit { file := some "tally.csv", result := none, loading := false }
        (.response 200 (some (.obj [("rows", .num 42),
          ("totals", .obj [("Debit", .num 1000.5), ("Credit", .num 1000.5)])])))).state.result =
      some (.obj [("rows", .num 42),
        ("totals", .obj [("Debit", .num 1000.5), ("Credit", .num 1000.5)])]) ∧
    tallyRowCount (.obj [("rows", .num 42),
        ("totals", .obj [("Debit", .num 1000.5), ("Credit", .num 1000.5)])]) = some (.num 42) ∧
    (tallyTotals (.obj [("rows", .num 42),
        ("totals", .obj [("Debit", .num 1000.5), ("Credit", .num 1000.5)])])).map objEntries =
      some [("Debit", .num 1000.5), ("Credit", .num 1000.5)] :=
  claim_C4_tabular_roundtrip _ "tally.csv" 200 _ 42 _ rfl rfl rfl

/-- Counterexample for C5: on a 500 response with a parseable JSON body
the code takes the success path (the status is never inspected — `fetch`
rejects only on network failure): the reply is mapped as on success and
the error branch never runs, so a non-2xx status does not transition the
state to Failed. -/
theorem claim_C5_counterexample :
    (gstHandleSubmit
        { noticeFile := some "notice.pdf", supportFiles := [],
          reply := some (.str ""), missing := .arr [], loading := false }
        (.response 500 (some (.obj [("reply", .str "draft")])))).consoleErrors = 0 ∧
    (gstHandleSubmit
        { noticeFile := some "notice.pdf", supportFiles := [],
          reply := some (.str ""), missing := .arr [], loading := false }
        (.response 500 (some (.obj [("reply", .str "draft")])))).state.reply =
      some (.str "draft") := by
  exact ⟨rfl, rfl⟩

/-- Claim C5 (amended): every completion of the network exchange resolves
the Submitting state (`loading` is false afterwards, always); a network
failure or a JSON-parse failure takes the error branch (the code's Failed
path: `console.error` runs); but a non-2xx status with a parseable body
is treated as success — the handler never inspects the status. -/
theorem claim_C5_submitting_resolves (s : GstState) (f : UploadFile)
    (o : FetchResult) (hf : s.noticeFile = some f) :
    (gstHandleSubmit s o).state.loading = false ∧
    (o.isFailure = true → (gstHandleSubmit s o).consoleErrors = 1) ∧
    (o.isFailure = false → (gstHandleSubmit s o).consoleErrors = 0) := by
  cases o with
  | networkError => simp [gstHandleSubmit, hf, gstTryBody, FetchResult.isFailure]
  | response st body =>
      cases body with
      | none => simp [gstHandleSubmit, hf, gstTryBody, FetchResult.isFailure]
      | some data => simp [gstHandleSubmit, hf, gstTryBody, FetchResult.isFailure]

/-- Witness for C5: a network failure from a state with a selected file
resolves Submitting and runs the error branch. -/
theorem claim_C5_witness :
    (gstHandleSubmit { gstInitialState with noticeFile := some "notice.pdf" }
        .networkError).state.loading = false ∧
    (gstHandleSubmit { gstInitialState with noticeFile := some "notice.pdf" }
        .networkError).consoleErrors = 1 :=
  ⟨(claim_C5_submitting_resolves _ "notice.pdf" _ rfl).1,
   (claim_C5_submitting_resolves _ "notice.pdf" _ rfl).2.1 rfl⟩

/-- Counterexample for C6: after a network failure the GST page's state is
exactly what it was before the submission — empty reply, empty missing
list, not loading — so nothing user-visible reports the failure; the only
effect is a `console.error` (a developer-facing channel).  The error is
caught, but it is not converted into a user-visible message. -/
theorem claim_C6_counterexample :
    (gstHandleSubmit { gstInitialState with noticeFile := some "notice.pdf" }
        .networkError).state.reply = some (.str "") ∧
    (gstHandleSubmit { gstInitialState with noticeFile := some "notice.pdf" }
        .networkError).state.missing = .arr [] ∧
    (gstHandleSubmit { gstInitialState with noticeFile := some "notice.pdf" }
        .networkError).state.loading = false ∧
    (gstHandleSubmit { gstInitialState with noticeFile := some "notice.pdf" }
        .networkError).consoleErrors = 1 := by
  exact ⟨rfl, rfl, rfl, rfl⟩

/-- Claim C6 (amended): all three error kinds are caught at the submission
boundary and none escapes as an unhandled fault (validation returns early,
and the try/catch absorbs transport and parse errors, always clearing
`loading`); the Tally-import handler converts a transport or parse
failure into the user-visible message `{ error: 'Failed to import file' }`,
while the GST-notice handler only logs the error to the console and
surfaces no user-visible message (its result display is unchanged). -/
theorem claim_C6_errors_caught (sg : GstState) (st : TallyState)
    (f g : UploadFile) (o : FetchResult)
    (hf : sg.noticeFile = some f) (hg : st.file = some g)
    (ho : o.isFailure = true) :
    (gstHandleSubmit sg o).state.loading = false ∧
    (gstHandleSubmit sg o).consoleErrors = 1 ∧
    (gstHandleSubmit sg o).state.reply = sg.reply ∧
    (gstHandleSubmit sg o).state.missing = sg.missing ∧
    (tallyHandleSubmit st o).state.result = some tallyErrorResult ∧
    (tallyHandleSubmit st o).state.loading = false := by
  cases o with
  | networkError =>
      simp [gstHandleSubmit, tallyHandleSubmit, hf, hg, gstTryBody]
  | response stat body =>
      cases body with
      | none => simp [gstHandleSubmit, tallyHandleSubmit, hf, hg, gstTryBody]
      | some data => simp [FetchResult.isFailure] at ho

/-- Witness for C6: a parse failure (body not valid JSON) on both pages. -/
theorem claim_C6_witness :
    (gstHandleSubmit { gstInitialState with noticeFile := some "n.pdf" }
        (.response 200 none)).consoleErrors = 1 ∧
    (tallyHandleSubmit { file := some "t.csv", result := none, loading := false }
        (.response 200 none)).state.result = some tallyErrorResult :=
  ⟨(claim_C6_errors_caught { gstInitialState with noticeFile := some "n.pdf" }
      { file := some "t.csv", result := none, loading := false }
      "n.pdf" "t.csv" (.response 200 none) rfl rfl rfl).2.1,
   (claim_C6_errors_caught { gstInitialState with noticeFile := some "n.pdf" }
      { file := some "t.csv", result := none, loading := false }
      "n.pdf" "t.csv" (.response 200 none) rfl rfl rfl).2.2.2.2.1⟩

/-- Counterexample for C7: the completion-bridge call site (generate.js
line 11) concatenates the environment value with no default, so when the
variable is absent the URL is "undefined/generate_reply", not the claimed
localhost default. -/
theorem claim_C7_counterexample :
    generateReplyURL none = "undefined/generate_reply" ∧
    generateReplyURL none ≠ "http://localhost:8000/generate_reply" := by
  refine ⟨rfl, ?_⟩
  decide

/-- Claim C7 (amended): the fetch-based pages (GST notice, Tally import,
tasks, appointments, clients) resolve the backend base URL from the
environment value and default to "http://localhost:8000" when it is
absent (the clients page also falls back to a second variable); the
completion-bridge handler instead concatenates the environment value
with no default, yielding "undefined/generate_reply" when it is absent. -/
theorem claim_C7_base_url (u : String) (hu : u ≠ "") :
    gstBackendURL none = "http://localhost:8000" ∧
    tallyBackendURL none = "http://localhost:8000" ∧
    tasksBackendURL none = "http://localhost:8000" ∧
    appointmentsBackendURL none = "http://localhost:8000" ∧
    clientsBaseURL none none = "http://localhost:8000" ∧
    gstBackendURL (some u) = u ∧
    tallyBackendURL (some u) = u ∧
    tasksBackendURL (some u) = u ∧
    appointmentsBackendURL (some u) = u ∧
    clientsBaseURL (some u) none = u ∧
    generateReplyURL (some u) = u ++ "/generate_reply" ∧
    generateReplyURL none = "undefined/generate_reply" := by
  simp [gstBackendURL, tallyBackendURL, tasksBackendURL, appointmentsBackendURL,
    clientsBaseURL, generateReplyURL, jsOrString, jsStringCoe, hu]

/-- Witness for C7: a concrete configured base URL. -/
theorem claim_C7_witness :
    gstBackendURL (some "http://api.example.com") = "http://api.example.com" ∧
    gstBackendURL none = "http://localhost:8000" ∧
    generateReplyURL none = "undefined/generate_reply" :=
  ⟨(claim_C7_base_url "http://api.example.com" (by decide)).2.2.2.2.2.1,
   (claim_C7_base_url "http://api.example.com" (by decide)).1,
   (claim_C7_base_url "http://api.example.com" (by decide)).2.2.2.2.2.2.2.2.2.2.2⟩

/-- Claim C8: on a POST with body `{ prompt }` the bridge forwards exactly
`{ message: prompt }` to the downstream completion endpoint, and on a
successful downstream exchange answers 200 with `{ reply }` holding the
downstream reply string (the empty string when the field is absent). -/
theorem claim_C8_completion_bridge (reqBody p data : JsonVal)
    (env : Option String) (hp : getField reqBody "prompt" = some p) :
    (generateHandler "POST" reqBody env (.success data)).downstreamCalls =
      [(generateReplyURL env, .obj [("message", p)])] ∧
    (generateHandler "POST" reqBody env (.success data)).response.status = 200 ∧
    (∀ s, getField data "reply" = some (.str s) →
      (generateHandler "POST" reqBody env (.success data)).response.body =
        .obj [("reply", .str s)]) ∧
    (getField data "reply" = none →
      (generateHandler "POST" reqBody env (.success data)).response.body =
        .obj [("reply", .str "")]) := by
  refine ⟨?_, ?_, fun s hs => ?_, fun h => ?_⟩
  · simp [generateHandler, messageBody, hp]
  · simp [generateHandler]
  · rcases eq_or_ne s "" with h | h
    · subst h; simp [generateHandler, jsOr, hs, truthy]
    · simp [generateHandler, jsOr, hs, truthy, h]
  · simp [generateHandler, jsOr, h]

/-- Witness for C8: a concrete prompt and a concrete downstream reply. -/
theorem claim_C8_witness :
    (generateHandler "POST" (.obj [("prompt", .str "hello")])
        (some "http://b") (.success (.obj [("reply", .str "ok")]))).downstreamCalls =
      [("http://b/generate_reply", .obj [("message", .str "hello")])] ∧
    (generateHandler "POST" (.obj [("prompt", .str "hello")])
        (some "http://b") (.success (.obj [("reply", .str "ok")]))).response.body =
      .obj [("reply", .str "ok")] :=
  ⟨(claim_C8_completion_bridge (.obj [("prompt", .str "hello")]) (.str "hello")
      (.obj [("reply", .str "ok")]) (some "http://b") rfl).1,
   (claim_C8_completion_bridge (.obj [("prompt", .str "hello")]) (.str "hello")
      (.obj [("reply", .str "ok")]) (some "http://b") rfl).2.2.1 "ok" rfl⟩

/-- Claim C9: when the fetch or the JSON parse throws, the GST page's
error branch modifies no result state — the previously displayed reply
and missing-documents values are left exactly as they were, and only the
loading flag is cleared. -/
theorem claim_C9_error_frame (s : GstState) (f : UploadFile) (o : FetchResult)
    (hf : s.noticeFile = some f) (ho : o.isFailure = true) :
    (gstHandleSubmit s o).state.reply = s.reply ∧
    (gstHandleSubmit s o).state.missing = s.missing ∧
    (gstHandleSubmit s o).state.noticeFile = s.noticeFile ∧
    (gstHandleSubmit s o).state.supportFiles = s.supportFiles ∧
    (gstHandleSubmit s o).state.loading = false := by
  cases o with
  | networkError => simp [gstHandleSubmit, hf, gstTryBody]
  | response stat body =>
      cases body with
      | none => simp [gstHandleSubmit, hf, gstTryBody]
      | some data => simp [FetchResult.isFailure] at ho

/-- Witness for C9: a prior successful reply survives a failed
resubmission. -/
theorem claim_C9_witness :
    (gstHandleSubmit
        { noticeFile := some "notice.pdf", supportFiles := [],
          reply := some (.str "earlier draft"), missing := .arr [.str "PAN card"],
          loading := false } .networkError).state.reply = some (.str "earlier draft") ∧
    (gstHandleSubmit
        { noticeFile := some "notice.pdf", supportFiles := [],
          reply := some (.str "earlier draft"), missing := .arr [.str "PAN card"],
          loading := false } .networkError).state.missing = .arr [.str "PAN card"] :=
  ⟨(claim_C9_error_frame _ "notice.pdf" .networkError rfl rfl).1,
   (claim_C9_error_frame _ "notice.pdf" .networkError rfl rfl).2.1⟩

/-- Claim C10: any request whose method is not POST is answered with 405
and `{ message: 'Method not allowed' }`, and no downstream call is made. -/
theorem claim_C10_method_guard (method : String) (reqBody : JsonVal)
    (env : Option String) (o : AxiosOutcome) (h : method ≠ "POST") :
    generateHandler method reqBody env o =
      { response := { status := 405, body := .obj [("message", .str "Method not allowed")] },
        downstreamCalls := [] } := by
  simp [generateHandler, h]

/-- Witness for C10: a GET request. -/
theorem claim_C10_witness :
    generateHandler "GET" (.obj []) none .failure =
      { response := { status := 405, body := .obj [("message", .str "Method not allowed")] },
        downstreamCalls := [] } :=
  claim_C10_method_guard "GET" (.obj []) none .failure (by decide)

end CASuite
